import Mathlib

/-!
Verification development for the `no-fluff-meta` job-postings ETL system.

The Python modules under verification are shallowly embedded:
pure functions become Lean functions, stateful code becomes explicit
state passing, exceptions become `Except`, wall-clock effects become
explicit traces, and Python floats are modelled by `ℚ`.
-/

/-! ## Python exceptions

Python exception values relevant to the scheduler and pipeline.
`keyboardInterrupt` derives from `BaseException` in Python and is the only
class caught by `DataPipeline.schedule`'s handler; `badCronError` models
croniter's `CroniterBadCronError` raised by the `croniter` constructor on a
malformed expression; `error` models an arbitrary `Exception` subclass
raised by a pipeline run (extraction, transformation, validation, loading),
tagged with its class name. -/

inductive PyExc where
  | keyboardInterrupt
  | badCronError
  | error (name : List Char)
deriving DecidableEq, Repr

/-! ## Scheduler: control-flow model (data_pipeline.py)

`DataPipeline.schedule` builds a croniter from the cron expression (outside
any handler), then loops: sleep until the next trigger, call `self.run()`.
The whole loop sits in a `try` whose only handler is
`except KeyboardInterrupt`.  `DataPipeline.run` wraps its body in
`try ... except Exception as e: logging.exception(e); raise`.

The model records observable actions (sleeping, a run executing, a log
entry) in a trace, and drives each loop iteration by an event: either the
sleep is interrupted by SIGINT, or the sleep completes and the run has a
given outcome. -/

inductive SchedAction where
  | slept
  | ran
  | loggedException (e : PyExc)
  | loggedInterrupted
deriving DecidableEq, Repr

deriving instance DecidableEq for Except

inductive RunEvent where
  | interrupted
  | runOutcome (r : Except PyExc Unit)
deriving DecidableEq, Repr

namespace DataPipeline

/-- `DataPipeline.run`, given the outcome of its body: on success it
returns normally; on an `Exception` it logs it (`logging.exception`) and
re-raises; a `KeyboardInterrupt` is not an `Exception` in Python, so it
passes through the `except Exception` clause unlogged. -/
def run (outcome : Except PyExc Unit) : Except PyExc Unit × List SchedAction :=
  match outcome with
  | .ok () => (.ok (), [.ran])
  | .error .keyboardInterrupt => (.error .keyboardInterrupt, [.ran])
  | .error e => (.error e, [.ran, .loggedException e])

/-- The `while True` body of `DataPipeline.schedule`, driven by a finite
event trace.  An exhausted trace means the loop is still going (result
`.ok ()` with the actions so far); an interrupt during sleep raises
`KeyboardInterrupt`; otherwise the iteration sleeps, runs the pipeline, and
continues only if the run returned normally. -/
def scheduleLoop : List RunEvent → Except PyExc Unit × List SchedAction
  | [] => (.ok (), [])
  | .interrupted :: _ => (.error .keyboardInterrupt, [])
  | .runOutcome r :: rest =>
    match run r with
    | (.ok (), acts) =>
      let (res, acts') := scheduleLoop rest
      (res, .slept :: (acts ++ acts'))
    | (.error e, acts) => (.error e, .slept :: acts)

/-- The `try ... except KeyboardInterrupt` wrapper around the scheduling
loop: a `KeyboardInterrupt` is caught and logged, ending the loop cleanly;
every other exception escapes `schedule`. -/
def scheduleLoopHandled (events : List RunEvent) : Except PyExc Unit × List SchedAction :=
  match scheduleLoop events with
  | (.error .keyboardInterrupt, acts) => (.ok (), acts ++ [.loggedInterrupted])
  | other => other

end DataPipeline

/-! ## croniter expression validation

`croniter.croniter(cron_expression, now)` validates the expression in its
constructor and raises `CroniterBadCronError` on a malformed one.  The
model below covers the validation of 5-field expressions whose fields are
`*` or a single number within the field's range (minute 0-59, hour 0-23,
day-of-month 1-31, month 1-12, day-of-week 0-7); richer cron syntax is not
exercised by the claims. -/

def splitWsAux (acc : List Char) : List Char → List (List Char)
  | [] => if acc = [] then [] else [acc.reverse]
  | c :: rest =>
    if c.isWhitespace then
      if acc = [] then splitWsAux [] rest else acc.reverse :: splitWsAux [] rest
    else splitWsAux (c :: acc) rest

/-- Python `str.split()` with no argument: split on runs of whitespace,
discarding empty fields. -/
def splitWs (s : List Char) : List (List Char) := splitWsAux [] s

def digitsToNat (f : List Char) : Nat :=
  f.foldl (fun a c => 10 * a + (c.toNat - 48)) 0

/-- One cron field is valid when it is `*` or a number within `[lo, hi]`. -/
def cronFieldOk (lo hi : Nat) (f : List Char) : Bool :=
  f = ['*'] ∨ (f ≠ [] ∧ f.all Char.isDigit ∧ lo ≤ digitsToNat f ∧ digitsToNat f ≤ hi)

def cronFieldRanges : List (Nat × Nat) := [(0, 59), (0, 23), (1, 31), (1, 12), (0, 7)]

/-- The croniter constructor's expression check: exactly five
whitespace-separated fields, each valid for its position.  Returns the
field list on success and `CroniterBadCronError` otherwise. -/
def croniterParse (expr : List Char) : Except PyExc (List (List Char)) :=
  let fields := splitWs expr
  if fields.length = 5 ∧ (fields.zip cronFieldRanges).all fun p => cronFieldOk p.2.1 p.2.2 p.1 then
    .ok fields
  else .error .badCronError

namespace DataPipeline

/-- `DataPipeline.schedule`: the croniter is constructed (validating the
expression) before the `try` block and before any sleep or run; only after
a successful parse does the handled loop start. -/
def schedule (expr : List Char) (events : List RunEvent) : Except PyExc Unit × List SchedAction :=
  match croniterParse expr with
  | .error e => (.error e, [])
  | .ok _ => scheduleLoopHandled events

end DataPipeline

/-! ## Scheduler: timing model (data_pipeline.py)

The loop keeps a single croniter whose position advances with each
`cron.get_next` call: the next trigger is the first cron time strictly
after the *previous trigger*, not after the current wall-clock time.  The
model abstracts the cron expression as `next : Int → Int` (the next trigger
strictly after a given time), and runs the loop over a list of run
durations.  Each iteration reads `now`, computes
`delta = cron.get_next() - now`, sleeps `delta` (Python's `time.sleep`
raises `ValueError` on a negative argument, aborting the loop), then runs
the pipeline for the iteration's duration.  `scheduleExec` returns the
`(trigger, delta)` pair of every iteration reached, stopping after a
negative delta. -/

def scheduleExec (next : Int → Int) : Int → Int → List Int → List (Int × Int)
  | _, _, [] => []
  | cronPos, now, d :: rest =>
    let trigger := next cronPos
    let delta := trigger - now
    if delta < 0 then [(trigger, delta)]
    else (trigger, delta) :: scheduleExec next trigger (trigger + d) rest

/-- The nominal trigger sequence of a cron: iterate `next` from the base
time, ignoring wall-clock progress entirely. -/
def nominalSeq (next : Int → Int) (base : Int) : Nat → List Int
  | 0 => []
  | n + 1 => next base :: nominalSeq next (next base) n

/-- A concrete cron firing at every multiple of 10 time units, used to
evaluate the scheduler's timing model on concrete runs. -/
def cron10 (t : Int) : Int := 10 * (t / 10 + 1)

/-! ## throttle (common/utils.py)

`throttle(seconds)` wraps a function so that the wrapped call first invokes
the function, then sleeps `seconds`, then returns the function's value.
Effectful functions are modelled as returning a value together with a trace
of actions; the sleep is appended to the wrapped function's own trace. -/

inductive EffAction where
  | sleepFor (seconds : ℚ)
  | prim (tag : List Char)
deriving DecidableEq, Repr

def throttle (seconds : ℚ) (func : α → β × List EffAction) : α → β × List EffAction :=
  fun args =>
    let ret := func args
    (ret.1, ret.2 ++ [EffAction.sleepFor seconds])

/-! ## retry (geolocator.py)

`Geolocator.__call__` is decorated `@retry(TimeoutError, tries=3, delay=10)`
(the `retry` library): the call is attempted up to `tries` times in total;
a raised `TimeoutError` before the last attempt causes a 10-second sleep
and a re-attempt; any other exception, and a `TimeoutError` on the last
attempt, propagates to the caller.  The underlying call is modelled as a
function from the attempt index to an outcome; `retryCall` returns the
final outcome, the number of attempts made, and the list of inter-attempt
delays slept (in seconds). -/

inductive GeoExc where
  | timeoutError
  | other (name : List Char)
deriving DecidableEq, Repr

def retryCall (f : Nat → Except GeoExc α) : Nat → Nat → Except GeoExc α × Nat × List Nat
  | 0, k => (f k, 1, [])
  | 1, k => (f k, 1, [])
  | n + 2, k =>
    match f k with
    | .ok a => (.ok a, 1, [])
    | .error .timeoutError =>
      let r := retryCall f (n + 1) (k + 1)
      (r.1, r.2.1 + 1, 10 :: r.2.2)
    | .error e => (.error e, 1, [])

/-- One geolocation result: (unified city name, latitude, longitude). -/
def GeoTriple := List Char × ℚ × ℚ
deriving DecidableEq

namespace Geolocator

/-- `Geolocator.__call__` as decorated in the source: the retry wrapper
with `tries = 3`, `delay = 10`, around attempts at the underlying
resolution (which returns the optional geolocation triple or raises). -/
def callResolve (f : Nat → Except GeoExc (Option GeoTriple)) :
    Except GeoExc (Option GeoTriple) × Nat × List Nat :=
  retryCall f 3 0

end Geolocator

/-! ## Memoization (geolocator.py)

`Geolocator.__call__` is additionally decorated with `@functools.cache`
(outermost): results, including `None`, are cached per argument for the
lifetime of the instance; the cache is only ever extended, never
invalidated.  The cache is modelled as an association list together with a
count of underlying (uncached) resolutions performed; the resolver may
answer differently on each underlying invocation (it is indexed by the
resolution count), so cache hits returning the stored value is a real
property, not determinism of the resolver. -/

structure CacheState where
  cache : List (List Char × Option GeoTriple)
  calls : Nat
deriving DecidableEq

def cacheLookup : List (List Char × Option GeoTriple) → List Char → Option (Option GeoTriple)
  | [], _ => .none
  | (k, v) :: rest, key => if k = key then some v else cacheLookup rest key

namespace Geolocator

/-- `functools.cache` applied to the call: look the city name up in the
cache; on a hit, return the stored result with the state unchanged; on a
miss, perform the underlying resolution, store its result, and bump the
resolution count. -/
def callCached (resolve : Nat → List Char → Option GeoTriple) (st : CacheState)
    (city : List Char) : Option GeoTriple × CacheState :=
  match cacheLookup st.cache city with
  | some r => (r, st)
  | .none =>
    let r := resolve st.calls city
    (r, ⟨(city, r) :: st.cache, st.calls + 1⟩)

end Geolocator

/-! ## Canonical city name (geolocator.py)

`Geolocator.get_universal_city_name_lat_lon` geocodes the city name; if no
location is found it returns `None`, otherwise it returns
`(location.address.split(',')[0], location.latitude, location.longitude)`.
`pySplit` models Python's `str.split` with a one-character separator (the
result is always non-empty; an empty string splits to one empty field). -/

structure Location where
  address : List Char
  latitude : ℚ
  longitude : ℚ
deriving DecidableEq

def pySplit (sep : Char) : List Char → List (List Char)
  | [] => [[]]
  | c :: rest =>
    let ps := pySplit sep rest
    if c = sep then [] :: ps
    else (c :: ps.headD []) :: ps.tail

namespace Geolocator

/-- `get_universal_city_name_lat_lon`, as a function of the geocoding
outcome for the queried city name. -/
def get_universal_city_name_lat_lon (geocoded : Option Location) :
    Option (List Char × ℚ × ℚ) :=
  match geocoded with
  | .none => .none
  | some loc =>
    some ((pySplit ',' loc.address).headD [], loc.latitude, loc.longitude)

end Geolocator

/-- The spec's phrase for canonicalization: the substring of the address
before its first comma, i.e. the longest comma-free leading run. -/
def beforeFirstComma (s : List Char) : List Char :=
  s.takeWhile fun c => !(c = ',')

/-! ## Legacy geolocator (data_processing/geolocator.py)

The legacy `Geolocator.get_universal_city_name_lat_lon` returns
`None, None, None` (a 3-tuple of `None`s) both when geocoding finds no
location and when the resolved country is not `'Polska'`, despite its
`Optional[Tuple[str, float, float]]` annotation suggesting a bare `None`.
A Python return value here is either a bare `None` or a 3-tuple whose
components may each be `None`. -/

inductive LegacyReturn where
  | none
  | triple (city : Option (List Char)) (lat lon : Option ℚ)
deriving DecidableEq, Repr

/-- Python `str.strip()`: drop leading and trailing whitespace. -/
def pyStrip (s : List Char) : List Char :=
  ((s.dropWhile Char.isWhitespace).reverse.dropWhile Char.isWhitespace).reverse

namespace LegacyGeolocator

/-- `Geolocator.address_str_to_city_country_name`: split the address on
commas and return the stripped first and last components. -/
def address_str_to_city_country_name (address : List Char) : List Char × List Char :=
  let split_loc := pySplit ',' address
  (pyStrip (split_loc.headD []), pyStrip (split_loc.getLastD []))

/-- The legacy `get_universal_city_name_lat_lon`, as a function of the
geocoding outcome: a missing location or a non-Polish country yields the
tuple `(None, None, None)`, never the bare `None`. -/
def get_universal_city_name_lat_lon (geocoded : Option Location) : LegacyReturn :=
  match geocoded with
  | .none => .triple .none .none .none
  | some loc =>
    let cc := address_str_to_city_country_name loc.address
    if cc.2 = "Polska".toList then
      .triple (some cc.1) (some loc.latitude) (some loc.longitude)
    else .triple .none .none .none

end LegacyGeolocator

/-! ## Validation schemas (data_validation.py)

`Schemas.salaries` and `Schemas.locations` are pandera `DataFrameSchema`s.
Rows are modelled with typed cells (`ℚ` for float columns, absorbing the
`coerce=True` int-to-float coercion; `Option` for cells that may be null in
a nullable-checked column).  A failed check raises `SchemaError` naming the
column and rule, and the whole relation fails — a successful validation
returns the relation unchanged (no row is dropped or altered). -/

inductive SchemaError where
  | violation (column : List Char) (rule : List Char)
deriving DecidableEq, Repr

/-- Whether a validation outcome is a success. -/
def validationPasses : Except SchemaError α → Bool
  | .ok _ => true
  | .error _ => false

/-- One row of the salaries view: `id`, `contract_type`,
`salary_min/max/mean` — the numeric cells may be null (pandera's
non-nullable default then rejects them). -/
structure SalaryRow where
  id : List Char
  contract_type : List Char
  salary_min : Option ℚ
  salary_max : Option ℚ
  salary_mean : Option ℚ
deriving DecidableEq

/-- A numeric salary cell passes its column check when it is non-null and
`>= 0` (`pa.Check.ge(0)`; nullable defaults to false). -/
def salaryCellOk : Option ℚ → Bool
  | .none => false
  | some x => 0 ≤ x

namespace Schemas

/-- `Schemas.salaries`: `id` unique, `contract_type` present, and each of
`salary_min`, `salary_max`, `salary_mean` non-null and non-negative; checks
run column by column and the first failing column fails the whole batch. -/
def salaries (rows : List SalaryRow) : Except SchemaError (List SalaryRow) :=
  if ¬ (rows.map SalaryRow.id).Nodup then
    .error (.violation "id".toList "unique".toList)
  else if ¬ rows.all fun r => salaryCellOk r.salary_min then
    .error (.violation "salary_min".toList "ge 0".toList)
  else if ¬ rows.all fun r => salaryCellOk r.salary_max then
    .error (.violation "salary_max".toList "ge 0".toList)
  else if ¬ rows.all fun r => salaryCellOk r.salary_mean then
    .error (.violation "salary_mean".toList "ge 0".toList)
  else .ok rows

end Schemas

/-- One row of the locations view: `id` and `city` are strings, `lat` and
`lon` are floats (post-coercion). -/
structure LocationRow where
  id : List Char
  city : List Char
  lat : ℚ
  lon : ℚ
deriving DecidableEq

namespace Schemas

/-- `Schemas.locations`: `lat` in `[-90, 90]` and `lon` in `[-180, 180]`
(inclusive, `pa.Check.ge`/`le`); an out-of-bounds value fails the whole
batch with a `SchemaError` naming the column. -/
def locations (rows : List LocationRow) : Except SchemaError (List LocationRow) :=
  if ¬ rows.all fun r => decide (-90 ≤ r.lat) && decide (r.lat ≤ 90) then
    .error (.violation "lat".toList "ge -90 le 90".toList)
  else if ¬ rows.all fun r => decide (-180 ≤ r.lon) && decide (r.lon ≤ 180) then
    .error (.violation "lon".toList "ge -180 le 180".toList)
  else .ok rows

end Schemas

/-! ## extract_salaries (transformation engine)

The transformation engine module itself is not among the sources (only its
unit tests are), so the operation is modelled from the spec. -/

/-- The salary sub-structure of a raw posting: optional `from` and `to`
bounds (already numeric). -/
structure RawSalary where
  salaryFrom : Option ℚ
  salaryTo : Option ℚ
deriving DecidableEq

/-- Modelled from the spec: `extract_salaries` of the transformation engine
(`data_etl.py`, absent from the sources) — copies numeric min/max from the
salary sub-structure, coerces to float, computes `mean = (min + max) / 2`
when both bounds are present; if only one bound is present, the mean is
that bound; negative values are left for later validation to reject.
Returns `(salary_min, salary_max, salary_mean)`. -/
def extract_salaries (s : RawSalary) : Option ℚ × Option ℚ × Option ℚ :=
  let mean : Option ℚ :=
    match s.salaryFrom, s.salaryTo with
    | some a, some b => some ((a + b) / 2)
    | some a, .none => some a
    | .none, some b => some b
    | .none, .none => .none
  (s.salaryFrom, s.salaryTo, mean)

/-- Assemble the salaries-view row for one posting from the extracted
salary columns. -/
def salaryRowOf (id ct : List Char) (s : RawSalary) : SalaryRow :=
  ⟨id, ct, (extract_salaries s).1, (extract_salaries s).2.1, (extract_salaries s).2.2⟩

/-! ## Helper lemmas -/

lemma retryCall_bounds (f : Nat → Except GeoExc α) :
    ∀ n k, (retryCall f (n + 1) k).2.1 ≤ n + 1 ∧
      ∀ d ∈ (retryCall f (n + 1) k).2.2, d = 10 := by
  intro n
  induction n with
  | zero => intro k; simp [retryCall]
  | succ m ih =>
    intro k
    cases hfk : f k with
    | ok a => simp [retryCall, hfk]
    | error e =>
      cases e with
      | timeoutError =>
        have hrec := ih (k + 1)
        simp only [retryCall, hfk]
        refine ⟨Nat.add_le_add_right hrec.1 1, ?_⟩
        intro d hd
        rcases List.mem_cons.mp hd with h10 | hmem
        · exact h10
        · exact hrec.2 d hmem
      | other name => simp [retryCall, hfk]

lemma pySplit_headD (sep : Char) (s : List Char) :
    (pySplit sep s).headD [] = s.takeWhile fun c => !(c = sep) := by
  induction s with
  | nil => simp [pySplit]
  | cons c rest ih =>
    by_cases h : c = sep
    · simp [pySplit, h]
    · have hd : pySplit sep (c :: rest)
          = (c :: (pySplit sep rest).headD []) :: (pySplit sep rest).tail := by
        simp [pySplit, h]
      rw [hd]
      rw [List.headD_eq_head?] at ih
      simp [List.takeWhile_cons, h, ih]

/-! ## Claims about the scheduler -/

/-- Claim C1, counterexample: a single failing pipeline run does escape the
scheduling loop.  With a valid cron expression, an `ExtractionError` raised
by the first run is logged and re-raised by `run`, and — since `schedule`'s
only handler is `except KeyboardInterrupt` — it propagates out of
`schedule`: the second queued trigger never fires (the trace records one
sleep and one run only), refuting "no per-run failure propagates out of the
scheduling loop". -/
theorem C1_schedule_swallows_counterexample :
    DataPipeline.schedule "0 12 * * *".toList
      [RunEvent.runOutcome (Except.error (PyExc.error "ExtractionError".toList)),
        RunEvent.runOutcome (Except.ok ())]
      = (Except.error (PyExc.error "ExtractionError".toList),
        [SchedAction.slept, SchedAction.ran,
          SchedAction.loggedException (PyExc.error "ExtractionError".toList)])
    ∧ (DataPipeline.schedule "0 12 * * *".toList
        [RunEvent.runOutcome (Except.error (PyExc.error "ExtractionError".toList)),
          RunEvent.runOutcome (Except.ok ())]).1 ≠ Except.ok () := by
  decide

/-- Claim C1 as amended: an exception raised by a pipeline run is caught
inside `DataPipeline.run`, logged, and re-raised; `DataPipeline.schedule`
catches only `KeyboardInterrupt`, so the failure propagates out of the
scheduling loop, which does not continue to later triggers (the trace ends
with the logged exception regardless of the remaining events). -/
theorem C1_schedule_propagates (expr : List Char) (c : List (List Char))
    (name : List Char) (rest : List RunEvent)
    (h : croniterParse expr = Except.ok c) :
    DataPipeline.schedule expr
        (RunEvent.runOutcome (Except.error (PyExc.error name)) :: rest)
      = (Except.error (PyExc.error name),
        [SchedAction.slept, SchedAction.ran,
          SchedAction.loggedException (PyExc.error name)]) := by
  unfold DataPipeline.schedule
  rw [h]
  rfl

/-- Witness for C1: the amended behavior evaluated on a concrete valid
expression and a concrete failing run. -/
theorem C1_schedule_propagates_witness :
    DataPipeline.schedule "0 12 * * *".toList
        [RunEvent.runOutcome (Except.error (PyExc.error "SchemaError".toList))]
      = (Except.error (PyExc.error "SchemaError".toList),
        [SchedAction.slept, SchedAction.ran,
          SchedAction.loggedException (PyExc.error "SchemaError".toList)]) :=
  C1_schedule_propagates "0 12 * * *".toList
    ["0".toList, "12".toList, "*".toList, "*".toList, "*".toList]
    "SchemaError".toList [] (by decide)

/-- Claim C2, counterexample: when every attempt raises `TimeoutError`,
`Geolocator.__call__` (the `retry(TimeoutError, tries=3, delay=10)`
wrapper) makes exactly 3 attempts with two 10-second delays and then
re-raises the `TimeoutError` — it does not return the unresolved `None`
result, refuting "after the retry bound is exhausted the call returns the
unresolved result (none)". -/
theorem C2_retry_counterexample :
    Geolocator.callResolve (fun _ => Except.error GeoExc.timeoutError)
      = (Except.error GeoExc.timeoutError, 3, [10, 10])
    ∧ (Geolocator.callResolve (fun _ => Except.error GeoExc.timeoutError)).1
      ≠ Except.ok Option.none := by
  constructor
  · rfl
  · intro h
    simp [Geolocator.callResolve, retryCall] at h

/-- Claim C2 as amended: a transient timeout is retried with a fixed
10-second delay between attempts and at most 3 attempts in total; when all
3 attempts time out the call makes exactly 3 attempts, sleeps 10 seconds
twice, and the `TimeoutError` propagates to the caller (the unresolved
`none` is returned only when geocoding finds no location, not on timeout
exhaustion). -/
theorem C2_retry_bound (f g : Nat → Except GeoExc (Option GeoTriple))
    (h : ∀ i, i < 3 → f i = Except.error GeoExc.timeoutError) :
    Geolocator.callResolve f = (Except.error GeoExc.timeoutError, 3, [10, 10])
    ∧ (Geolocator.callResolve g).2.1 ≤ 3
    ∧ ∀ d ∈ (Geolocator.callResolve g).2.2, d = 10 := by
  refine ⟨?_, (retryCall_bounds g 2 0).1, (retryCall_bounds g 2 0).2⟩
  have h0 := h 0 (by norm_num)
  have h1 := h 1 (by norm_num)
  have h2 := h 2 (by norm_num)
  simp [Geolocator.callResolve, retryCall, h0, h1, h2]

/-- Witness for C2: the amended retry behavior on the always-timing-out
attempt function. -/
theorem C2_retry_bound_witness :
    Geolocator.callResolve (fun _ => Except.error GeoExc.timeoutError)
      = (Except.error GeoExc.timeoutError, 3, [10, 10])
    ∧ (Geolocator.callResolve fun _ =>
        Except.ok (some ("Warszawa".toList, 52, 21))).2.1 ≤ 3 :=
  ⟨(C2_retry_bound (fun _ => Except.error GeoExc.timeoutError)
      (fun _ => Except.ok (some ("Warszawa".toList, 52, 21)))
      (by intro i _; rfl)).1,
    (C2_retry_bound (fun _ => Except.error GeoExc.timeoutError)
      (fun _ => Except.ok (some ("Warszawa".toList, 52, 21)))
      (by intro i _; rfl)).2.1⟩

/-- Claim C3, counterexample: with a cron firing at every multiple of 10
and a run that takes 25 time units starting from time 0, the first trigger
fires at 10 with sleep delta 10, the run completes at 35, and the loop's
next computed trigger is the nominal 20 (from `cron.get_next`, which
advances from the previous trigger, not from the completion time): the
sleep delta is `20 - 35 = -15 < 0`, refuting "the next sleep delta is
always strictly positive" and "the next trigger is recomputed from the
actual completion time". -/
theorem C3_overrun_counterexample :
    scheduleExec cron10 0 0 [25, 0] = [(10, 10), (20, -15)] ∧ (-15 : Int) < 0 := by
  decide

/-- Claim C3 as amended: the next trigger is obtained from the croniter's
state — each trigger is `next` of the previous trigger, never recomputed
from the run's completion time — so as long as every computed sleep delta
is non-negative the consulted triggers are exactly the nominal cron
sequence from the start position, independent of the run durations; an
overrunning run instead produces a negative sleep delta (on which
`time.sleep` raises `ValueError`), not a trigger pushed past the
completion time. -/
theorem C3_nominal_triggers (next : Int → Int) (cronPos now : Int) (durs : List Int)
    (h : ∀ p ∈ scheduleExec next cronPos now durs, 0 ≤ p.2) :
    (scheduleExec next cronPos now durs).map Prod.fst
      = nominalSeq next cronPos durs.length := by
  induction durs generalizing cronPos now with
  | nil => simp [scheduleExec, nominalSeq]
  | cons d rest ih =>
    by_cases hneg : next cronPos - now < 0
    · exfalso
      have hmem : (next cronPos, next cronPos - now)
          ∈ scheduleExec next cronPos now (d :: rest) := by
        simp [scheduleExec, hneg]
      have := h _ hmem
      omega
    · have hstep : scheduleExec next cronPos now (d :: rest)
          = (next cronPos, next cronPos - now)
            :: scheduleExec next (next cronPos) (next cronPos + d) rest := by
        simp [scheduleExec, hneg]
      rw [hstep]
      simp only [List.map_cons, List.length_cons, nominalSeq]
      refine congrArg (List.cons (next cronPos)) (ih (next cronPos) (next cronPos + d) ?_)
      intro p hp
      exact h p (by rw [hstep]; exact List.mem_cons_of_mem _ hp)

/-- Witness for C3: with no overrun, the consulted triggers match the
nominal sequence on a concrete cron. -/
theorem C3_nominal_triggers_witness :
    (scheduleExec cron10 0 0 [0, 0]).map Prod.fst = nominalSeq cron10 0 2 :=
  C3_nominal_triggers cron10 0 0 [0, 0] (by decide)

/-! ## Claims about salaries and validation -/

/-- Claim C4 (spec-modelled, `data_etl.py` absent from the sources): with
both bounds present `extract_salaries` produces
`salary_mean = (salary_min + salary_max) / 2`; with exactly one bound
present the mean is that bound; and a salaries row that passes the
`Schemas.salaries` validation is returned unchanged (never clamped) with a
non-negative `salary_mean`. -/
theorem C4_extract_salaries (s : RawSalary) (id ct : List Char) :
    (∀ a b, s.salaryFrom = some a → s.salaryTo = some b →
        (extract_salaries s).2.2 = some ((a + b) / 2))
    ∧ (∀ a, s.salaryFrom = some a → s.salaryTo = Option.none →
        (extract_salaries s).2.2 = some a)
    ∧ (∀ b, s.salaryFrom = Option.none → s.salaryTo = some b →
        (extract_salaries s).2.2 = some b)
    ∧ (∀ out, Schemas.salaries [salaryRowOf id ct s] = Except.ok out →
        out = [salaryRowOf id ct s]
        ∧ ∃ m, (extract_salaries s).2.2 = some m ∧ 0 ≤ m) := by
  refine ⟨?_, ?_, ?_, ?_⟩
  · intro a b ha hb
    simp [extract_salaries, ha, hb]
  · intro a ha hb
    simp [extract_salaries, ha, hb]
  · intro b ha hb
    simp [extract_salaries, ha, hb]
  · intro out hout
    unfold Schemas.salaries at hout
    split at hout
    · exact absurd hout (by simp)
    · split at hout
      · exact absurd hout (by simp)
      · split at hout
        · exact absurd hout (by simp)
        · split at hout
          · exact absurd hout (by simp)
          · rename_i hmean
            refine ⟨(Except.ok.injEq _ _).mp hout.symm, ?_⟩
            rw [not_not, List.all_eq_true] at hmean
            have hcell := hmean (salaryRowOf id ct s) (by simp)
            revert hcell
            unfold salaryCellOk salaryRowOf
            cases hm : (extract_salaries s).2.2 with
            | none => simp
            | some m =>
              intro hcell
              exact ⟨m, rfl, by simpa using hcell⟩

/-- Witness for C4: the test fixture's salary range 20000-25000 yields the
mean 22500, and the resulting row passes the salaries schema with a
non-negative mean. -/
theorem C4_extract_salaries_witness :
    (extract_salaries ⟨some 20000, some 25000⟩).2.2 = some ((20000 + 25000 : ℚ) / 2)
    ∧ ∃ m, (extract_salaries ⟨some 20000, some 25000⟩).2.2 = some m ∧ 0 ≤ m := by
  refine ⟨(C4_extract_salaries ⟨some 20000, some 25000⟩ "ELGZSKOL".toList
      "b2b".toList).1 20000 25000 rfl rfl, ?_⟩
  exact ((C4_extract_salaries ⟨some 20000, some 25000⟩ "ELGZSKOL".toList
      "b2b".toList).2.2.2
      [salaryRowOf "ELGZSKOL".toList "b2b".toList ⟨some 20000, some 25000⟩]
      (by simp [Schemas.salaries, salaryRowOf, extract_salaries, salaryCellOk]; norm_num)).2

/-- Claim C6: validation of a relation against the locations schema
succeeds exactly when every latitude lies in `[-90, 90]` and every
longitude lies in `[-180, 180]`; on success the whole relation is returned
unchanged, and on any out-of-bounds value the whole batch fails with a
`SchemaError` (no row-level skipping). -/
theorem C6_locations_bounds (rows : List LocationRow) :
    (validationPasses (Schemas.locations rows) = true ↔
      ∀ r ∈ rows, ((-90 : ℚ) ≤ r.lat ∧ r.lat ≤ 90) ∧ ((-180 : ℚ) ≤ r.lon ∧ r.lon ≤ 180))
    ∧ ∀ out, Schemas.locations rows = Except.ok out → out = rows := by
  have hlat : (rows.all fun r => decide ((-90 : ℚ) ≤ r.lat) && decide (r.lat ≤ 90)) = true
      ↔ ∀ r ∈ rows, ((-90 : ℚ) ≤ r.lat ∧ r.lat ≤ 90) := by
    rw [List.all_eq_true]
    refine forall_congr' fun r => imp_congr_right fun _ => by simp
  have hlon : (rows.all fun r => decide ((-180 : ℚ) ≤ r.lon) && decide (r.lon ≤ 180)) = true
      ↔ ∀ r ∈ rows, ((-180 : ℚ) ≤ r.lon ∧ r.lon ≤ 180) := by
    rw [List.all_eq_true]
    refine forall_congr' fun r => imp_congr_right fun _ => by simp
  by_cases h1 : ∀ r ∈ rows, ((-90 : ℚ) ≤ r.lat ∧ r.lat ≤ 90)
  · by_cases h2 : ∀ r ∈ rows, ((-180 : ℚ) ≤ r.lon ∧ r.lon ≤ 180)
    · have hloc : Schemas.locations rows = Except.ok rows := by
        unfold Schemas.locations
        rw [if_neg (not_not_intro (hlat.mpr h1)), if_neg (not_not_intro (hlon.mpr h2))]
      rw [hloc]
      refine ⟨iff_of_true rfl fun r hr => ⟨h1 r hr, h2 r hr⟩, ?_⟩
      intro out hout
      exact ((Except.ok.injEq _ _).mp hout).symm
    · have hloc : Schemas.locations rows
          = Except.error (.violation "lon".toList "ge -180 le 180".toList) := by
        unfold Schemas.locations
        rw [if_neg (not_not_intro (hlat.mpr h1)),
          if_pos (fun hall => h2 (hlon.mp hall))]
      rw [hloc]
      refine ⟨iff_of_false (by simp [validationPasses])
        (fun hall => h2 fun r hr => (hall r hr).2), ?_⟩
      intro out hout
      exact absurd hout (by simp)
  · have hloc : Schemas.locations rows
        = Except.error (.violation "lat".toList "ge -90 le 90".toList) := by
      unfold Schemas.locations
      rw [if_pos (fun hall => h1 (hlat.mp hall))]
    rw [hloc]
    refine ⟨iff_of_false (by simp [validationPasses])
      (fun hall => h1 fun r hr => (hall r hr).1), ?_⟩
    intro out hout
    exact absurd hout (by simp)

/-- Witness for C6: a concrete in-bounds relation (Warsaw) passes the
locations schema. -/
theorem C6_locations_bounds_witness :
    validationPasses
      (Schemas.locations [⟨"ELGZSKOL".toList, "Warszawa".toList, 52, 21⟩]) = true :=
  (C6_locations_bounds [⟨"ELGZSKOL".toList, "Warszawa".toList, 52, 21⟩]).1.mpr
    (by intro r hr; rcases List.mem_singleton.mp hr with rfl; norm_num)

/-! ## Claims about the geolocator -/

/-- Claim C5: `functools.cache` memoizes `Geolocator.__call__` per city
name — the second call on the same name returns the identical result of
the first with no new underlying resolution (state unchanged); the cache
entry appears lazily on first lookup, and existing entries are never
invalidated within the process. -/
theorem C5_memoized (resolve : Nat → List Char → Option GeoTriple)
    (st : CacheState) (city : List Char) :
    (Geolocator.callCached resolve
        (Geolocator.callCached resolve st city).2 city).1
      = (Geolocator.callCached resolve st city).1
    ∧ (Geolocator.callCached resolve
        (Geolocator.callCached resolve st city).2 city).2
      = (Geolocator.callCached resolve st city).2
    ∧ (cacheLookup st.cache city = Option.none →
        (Geolocator.callCached resolve st city).2.calls = st.calls + 1
        ∧ cacheLookup (Geolocator.callCached resolve st city).2.cache city
          = some (resolve st.calls city))
    ∧ ∀ e ∈ st.cache, e ∈ (Geolocator.callCached resolve st city).2.cache := by
  cases hlk : cacheLookup st.cache city with
  | some v =>
    refine ⟨?_, ?_, ?_, ?_⟩
    · simp [Geolocator.callCached, hlk]
    · simp [Geolocator.callCached, hlk]
    · intro hc
      exact Option.noConfusion hc
    · intro e he
      have hst : (Geolocator.callCached resolve st city).2 = st := by
        simp [Geolocator.callCached, hlk]
      rw [hst]
      exact he
  | none =>
    have hfst : Geolocator.callCached resolve st city
        = (resolve st.calls city,
          ⟨(city, resolve st.calls city) :: st.cache, st.calls + 1⟩) := by
      simp [Geolocator.callCached, hlk]
    refine ⟨?_, ?_, ?_, ?_⟩
    · rw [hfst]; simp [Geolocator.callCached, cacheLookup]
    · rw [hfst]; simp [Geolocator.callCached, cacheLookup]
    · intro _; rw [hfst]; simp [cacheLookup]
    · intro e he; rw [hfst]; exact List.mem_cons_of_mem _ he

/-- Witness for C5: memoization evaluated from the empty cache on a
concrete city name and resolver. -/
theorem C5_memoized_witness :
    (Geolocator.callCached (fun _ _ => some ("Warszawa".toList, 52, 21))
        (Geolocator.callCached (fun _ _ => some ("Warszawa".toList, 52, 21))
          ⟨[], 0⟩ "Warsaw".toList).2 "Warsaw".toList).1
      = (Geolocator.callCached (fun _ _ => some ("Warszawa".toList, 52, 21))
          ⟨[], 0⟩ "Warsaw".toList).1
    ∧ (Geolocator.callCached (fun _ _ => some ("Warszawa".toList, 52, 21))
        ⟨[], 0⟩ "Warsaw".toList).2.calls = 0 + 1 :=
  ⟨(C5_memoized (fun _ _ => some ("Warszawa".toList, 52, 21))
      ⟨[], 0⟩ "Warsaw".toList).1,
    ((C5_memoized (fun _ _ => some ("Warszawa".toList, 52, 21))
      ⟨[], 0⟩ "Warsaw".toList).2.2.1 rfl).1⟩

/-- Claim C7: `DataPipeline.schedule` constructs the croniter before the
loop: an invalid cron expression raises at startup, before any sleep and
before any pipeline run (the action trace is empty); a valid 5-field
expression is accepted, after which the schedule is exactly the handled
loop, and the first computed trigger is the cron successor of the current
time at which scheduling started. -/
theorem C7_schedule_startup (expr : List Char) (events : List RunEvent)
    (next : Int → Int) (now d : Int) (rest : List Int) :
    (∀ e, croniterParse expr = Except.error e →
      DataPipeline.schedule expr events = (Except.error e, []))
    ∧ (∀ c, croniterParse expr = Except.ok c →
      DataPipeline.schedule expr events = DataPipeline.scheduleLoopHandled events)
    ∧ (scheduleExec next now now (d :: rest)).head?
      = some (next now, next now - now) := by
  refine ⟨?_, ?_, ?_⟩
  · intro e h
    unfold DataPipeline.schedule
    rw [h]
  · intro c h
    unfold DataPipeline.schedule
    rw [h]
  · by_cases h : next now - now < 0 <;> simp [scheduleExec, h]

/-- Witness for C7: a malformed expression is rejected with an empty
action trace; a concrete valid 5-field expression proceeds to the loop;
and the first trigger on a concrete cron is its successor of the start
time. -/
theorem C7_schedule_startup_witness :
    DataPipeline.schedule "not a cron".toList [] = (Except.error PyExc.badCronError, [])
    ∧ DataPipeline.schedule "0 12 * * *".toList []
      = DataPipeline.scheduleLoopHandled []
    ∧ (scheduleExec cron10 3 3 [7]).head? = some (cron10 3, cron10 3 - 3) :=
  ⟨(C7_schedule_startup "not a cron".toList [] cron10 3 7 []).1
      PyExc.badCronError (by decide),
    (C7_schedule_startup "0 12 * * *".toList [] cron10 3 7 []).2.1
      ["0".toList, "12".toList, "*".toList, "*".toList, "*".toList] (by decide),
    (C7_schedule_startup "0 12 * * *".toList [] cron10 3 7 []).2.2⟩

/-- Claim C8: for a successfully geocoded city, the canonical city name is
exactly the substring of the resolved address before its first comma
(`location.address.split(',')[0]`), with everything after the first comma
— the administrative and country components — discarded. -/
theorem C8_canonical_city (loc : Location) :
    Geolocator.get_universal_city_name_lat_lon (some loc)
      = some (beforeFirstComma loc.address, loc.latitude, loc.longitude) := by
  have h := pySplit_headD ',' loc.address
  rw [List.headD_eq_head?] at h
  simp [Geolocator.get_universal_city_name_lat_lon, beforeFirstComma, h]

/-- Claim C9: the `throttle(seconds)` wrapper returns exactly the wrapped
function's value, and the enforced delay is a sleep appended after all of
the wrapped function's own effects — in particular the first call is not
delayed before the function executes. -/
theorem C9_throttle_value_preserving (seconds : ℚ)
    (func : α → β × List EffAction) (args : α) :
    (throttle seconds func args).1 = (func args).1
    ∧ (throttle seconds func args).2
      = (func args).2 ++ [EffAction.sleepFor seconds] :=
  ⟨rfl, rfl⟩

/-- Claim C10: the legacy geolocator's
`get_universal_city_name_lat_lon` returns the 3-tuple `(None, None, None)`
— never the bare `None` its annotation suggests — both when geocoding
yields no location and when the resolved country is not `'Polska'`. -/
theorem C10_legacy_none_triple (geocoded : Option Location) :
    (geocoded = Option.none →
      LegacyGeolocator.get_universal_city_name_lat_lon geocoded
        = LegacyReturn.triple Option.none Option.none Option.none)
    ∧ (∀ loc, geocoded = some loc →
      (LegacyGeolocator.address_str_to_city_country_name loc.address).2
        ≠ "Polska".toList →
      LegacyGeolocator.get_universal_city_name_lat_lon geocoded
        = LegacyReturn.triple Option.none Option.none Option.none)
    ∧ LegacyGeolocator.get_universal_city_name_lat_lon geocoded
      ≠ LegacyReturn.none := by
  refine ⟨?_, ?_, ?_⟩
  · intro h
    rw [h]
    rfl
  · intro loc h hcountry
    rw [h]
    simp only [LegacyGeolocator.get_universal_city_name_lat_lon]
    rw [if_neg hcountry]
  · cases geocoded with
    | none =>
      intro hc
      exact LegacyReturn.noConfusion hc
    | some loc =>
      simp only [LegacyGeolocator.get_universal_city_name_lat_lon]
      by_cases h : (LegacyGeolocator.address_str_to_city_country_name loc.address).2
          = "Polska".toList
      · rw [if_pos h]
        intro hc
        exact LegacyReturn.noConfusion hc
      · rw [if_neg h]
        intro hc
        exact LegacyReturn.noConfusion hc

/-- Witness for C10: a German address and a failed geocoding both yield
the `(None, None, None)` tuple. -/
theorem C10_legacy_none_triple_witness :
    LegacyGeolocator.get_universal_city_name_lat_lon
        (some ⟨"Berlin, Deutschland".toList, 52, 13⟩)
      = LegacyReturn.triple Option.none Option.none Option.none
    ∧ LegacyGeolocator.get_universal_city_name_lat_lon Option.none
      = LegacyReturn.triple Option.none Option.none Option.none :=
  ⟨(C10_legacy_none_triple (some ⟨"Berlin, Deutschland".toList, 52, 13⟩)).2.1
      ⟨"Berlin, Deutschland".toList, 52, 13⟩ rfl (by decide),
    (C10_legacy_none_triple Option.none).1 rfl⟩
